import Mathlib

/-!
# Budget–Savings Transfer Engine: a shallow embedding

This file embeds the core of the budgethandler backend (the budget service,
the savings service and their mongoose models) as executable Lean
definitions, and proves properties of those definitions.

Modelling conventions:
* Money values are rationals (`ℚ`).  The mongoose schemas enforce
  `min: 0.01` on transaction amounts, embedded as `1/100 ≤ amount`.
* Timestamps are integers (milliseconds since the Unix epoch, UTC).
  `new Date(year, month-1, 1)` and friends are embedded through a civil
  calendar conversion (`daysFromCivil` / `civilFromDays`); the timezone
  offset of the JS runtime is modelled as zero.
* Mongoose document ids are naturals.
* All savings collections are scoped per owner in the source (every query
  filters on `userId`), so the savings store is modelled per owner:
  `SavingsState` holds the (at most one) `Savings` record of the owner and
  the owner's `SavingsTransaction` log.
* A mongoose session (`startSession`/`commitTransaction`/`abortTransaction`)
  makes the writes between its start and commit all-or-nothing; operations
  are embedded as functions returning the state after the call together
  with an `Except` outcome, where an error outcome leaves the state as it
  was when the session started.
* Mongoose schema validation (run on `save`/`create`) is embedded as
  explicit checks; a failing validation inside a session aborts it.
-/

namespace BudgetHandler

/-! ## Calendar arithmetic

Embeds the JS `Date` constructions used by the services.  The algorithms
are the standard proleptic-Gregorian civil-calendar conversions; all
divisions occur on non-negative operands for the years representable by
the schemas (2000–2100), where every integer division convention agrees.
-/

/-- Days from the civil date `(y, m, d)` (with `1 ≤ m ≤ 12`) to 1970-01-01. -/
def daysFromCivil (y m d : ℤ) : ℤ :=
  let y' := if m ≤ 2 then y - 1 else y
  let era := (if 0 ≤ y' then y' else y' - 399) / 400
  let yoe := y' - era * 400
  let mp := (m + 9) % 12
  let doy := (153 * mp + 2) / 5 + d - 1
  let doe := yoe * 365 + yoe / 4 - yoe / 100 + doy
  era * 146097 + doe - 719468

/-- Civil date `(y, m, d)` of the day `z` days after 1970-01-01. -/
def civilFromDays (z : ℤ) : ℤ × ℤ × ℤ :=
  let z' := z + 719468
  let era := (if 0 ≤ z' then z' else z' - 146096) / 146097
  let doe := z' - era * 146097
  let yoe := (doe - doe / 1460 + doe / 36524 - doe / 146096) / 365
  let y := yoe + era * 400
  let doy := doe - (365 * yoe + yoe / 4 - yoe / 100)
  let mp := (5 * doy + 2) / 153
  let d := doy - (153 * mp + 2) / 5 + 1
  let m := mp + (if mp < 10 then 3 else -9)
  (y + (if m ≤ 2 then 1 else 0), m, d)

/-- Milliseconds in one day. -/
def msPerDay : ℤ := 86400000

/-- Timestamp of `new Date(year, monthIndex, day)` at midnight, where
`monthIndex` is the JS zero-based month; months outside `0..11` are
normalised onto the adjacent years, as the JS `Date` constructor does. -/
def dateMs (year monthIndex day : ℤ) : ℤ :=
  let y := year + Int.fdiv monthIndex 12
  let m := Int.emod monthIndex 12 + 1
  daysFromCivil y m day * msPerDay

/-- `new Date(year, month - 1, 1)`: first millisecond of a (1-based) month. -/
def monthStartMs (month year : ℤ) : ℤ := dateMs year (month - 1) 1

/-- `new Date(year, month, 0, 23, 59, 59, 999)`: last millisecond of the
(1-based) `month` — one millisecond before the next month starts. -/
def monthEndMs (month year : ℤ) : ℤ := dateMs year month 1 - 1

/-- `getMonth() + 1` of a timestamp: its 1-based civil month. -/
def monthOfMs (ts : ℤ) : ℤ := (civilFromDays (Int.fdiv ts msPerDay)).2.1

/-- `getFullYear()` of a timestamp. -/
def yearOfMs (ts : ℤ) : ℤ := (civilFromDays (Int.fdiv ts msPerDay)).1

/-- Short month names used by `toLocaleDateString('en-US', {month:'short'})`. -/
def monthShortNames : List String :=
  ["Jan", "Feb", "Mar", "Apr", "May", "Jun",
   "Jul", "Aug", "Sep", "Oct", "Nov", "Dec"]

/-- `toLocaleDateString('en-US', { month:'short', day:'numeric' })`. -/
def formatShortDate (ts : ℤ) : String :=
  let c := civilFromDays (Int.fdiv ts msPerDay)
  (monthShortNames.getD (c.2.1 - 1).toNat "???") ++ " " ++ toString c.2.2

/-- `toLocaleDateString('en-US', { month:'short', day:'numeric', year:'numeric' })`. -/
def formatShortDateYear (ts : ℤ) : String :=
  formatShortDate ts ++ ", " ++ toString (yearOfMs ts)

/-! ## Data model (mongoose schemas) -/

/-- `Category` model (fields used by the budget/savings services). -/
structure Category where
  id : ℕ
  userId : ℕ
  name : String
  ctype : String
  deriving Repr, DecidableEq

/-- `Transaction` model (the main income/expense ledger entry). -/
structure Txn where
  userId : ℕ
  categoryId : ℕ
  ttype : String
  amount : ℚ
  date : ℤ
  deriving Repr, DecidableEq

/-- An entry of `savingsSchema.transferredCycles`. -/
structure TransferredCycle where
  month : ℤ
  year : ℤ
  amount : ℚ
  transferredAt : ℤ
  deriving Repr, DecidableEq

/-- `Savings` model: one record per owner. -/
structure Savings where
  balance : ℚ
  totalDeposits : ℚ
  totalWithdrawals : ℚ
  lastTransactionDate : Option ℤ
  transferredCycles : List TransferredCycle
  deriving Repr, DecidableEq

/-- The `budgetCycle` subdocument of a `SavingsTransaction`. -/
structure BudgetCycle where
  month : ℤ
  year : ℤ
  deriving Repr, DecidableEq

/-- `SavingsTransaction` model: append-only audit record. -/
structure SavingsTransaction where
  stType : String
  amount : ℚ
  source : String
  description : String
  budgetCycle : Option BudgetCycle
  balanceAfter : ℚ
  relatedBudgetId : Option ℕ
  deriving Repr, DecidableEq

/-- `Budget` model (period-based version). -/
structure Budget where
  id : ℕ
  userId : ℕ
  categoryId : ℕ
  amount : ℚ
  month : ℤ
  year : ℤ
  startDate : ℤ
  endDate : ℤ
  periodType : String
  status : String
  savingsTransferred : Bool
  savingsTransferAmount : ℚ
  savingsTransferDate : Option ℤ
  notes : String
  deriving Repr, DecidableEq

/-! ### Schema validation

Embeds the mongoose validators that run when a document is saved or
created.  Each check mirrors a `min`/`max`/`enum`/`maxlength` declaration
of the corresponding schema.
-/

/-- The `source` enum of `savingsTransactionSchema` — note that the list
in the model does NOT contain `budget_remainder`, although the savings
service deposits with that source. -/
def savingsTransactionSourceValues : List String :=
  ["budget_surplus", "manual", "budget_overrun", "goal_contribution", "interest"]

/-- Validators of one `transferredCycles` entry (`min`/`max` bounds). -/
def transferredCycleOk (c : TransferredCycle) : Bool :=
  1 ≤ c.month && c.month ≤ 12 && 2000 ≤ c.year && c.year ≤ 2100 && 0 ≤ c.amount

/-- Validators of the `Savings` schema: `balance`, `totalDeposits` and
`totalWithdrawals` all have `min: 0`, and every cycle subdocument must
pass its own validators. -/
def savingsOk (s : Savings) : Bool :=
  0 ≤ s.balance && 0 ≤ s.totalDeposits && 0 ≤ s.totalWithdrawals &&
    s.transferredCycles.all transferredCycleOk

/-- Validators of the `budgetCycle` subdocument (bounds apply when present). -/
def budgetCycleOk (c : Option BudgetCycle) : Bool :=
  match c with
  | none => true
  | some c => 1 ≤ c.month && c.month ≤ 12 && 2000 ≤ c.year && c.year ≤ 2100

/-- Validators of the `SavingsTransaction` schema: `type` and `source`
enums, `amount` has `min: 0.01`, `description` has `maxlength: 500`,
`balanceAfter` has `min: 0`. -/
def savingsTransactionOk (t : SavingsTransaction) : Bool :=
  (t.stType == "credit" || t.stType == "debit") &&
  (1/100 : ℚ) ≤ t.amount &&
  savingsTransactionSourceValues.contains t.source &&
  t.description.length ≤ 500 &&
  budgetCycleOk t.budgetCycle &&
  0 ≤ t.balanceAfter

/-- Validators of the `Budget` schema that apply at creation through the
service: `amount` has `min: 0.01`, the `pre('validate')` hook rejects
`endDate ≤ startDate`, `periodType` and `status` are enums, `notes` has
`maxlength: 500`, `savingsTransferAmount` has `min: 0`.  (`month`/`year`
are filled by the `pre('save')` hook after validation has run, so their
bounds are not enforced on the values the hook writes.) -/
def budgetOk (b : Budget) : Bool :=
  (1/100 : ℚ) ≤ b.amount &&
  b.startDate < b.endDate &&
  ["weekly", "monthly", "custom"].contains b.periodType &&
  ["upcoming", "active", "completed", "cancelled"].contains b.status &&
  b.notes.length ≤ 500 &&
  0 ≤ b.savingsTransferAmount

/-! ## Error taxonomy

One constructor per business-rule `throw` site of the services, plus the
schema-validation failures that surface when a `save`/`create` runs inside
a session.  `invalidAmount` is the `SavingsTransaction.amount` `min: 0.01`
failure (message `Amount must be greater than 0`); `invalidSource` is its
`source` enum failure. -/
inductive SvcError where
  | notFound : SvcError
  | invalidCategoryType : SvcError
  | missingPeriod : SvcError
  | overlappingBudget : SvcError
  | immutable : SvcError
  | transferLocked : SvcError
  | invalidAmount : SvcError
  | invalidSource : SvcError
  | insufficientBalance : SvcError
  | insufficientSavings : SvcError
  | insufficientAvailableBalance : SvcError
  | duplicateTransfer : SvcError
  | nothingToTransfer : SvcError
  | notOverrun : SvcError
  | alreadyTransferred : SvcError
  | validationError : String → SvcError
  deriving Repr, DecidableEq

/-! ## Stores -/

/-- The savings-side persistent store of one owner: the (at most one)
`Savings` record and the append-only `SavingsTransaction` log. -/
structure SavingsState where
  savings : Option Savings
  txLog : List SavingsTransaction
  deriving Repr, DecidableEq

/-- The read-only collections the services query. -/
structure Env where
  categories : List Category
  transactions : List Txn
  deriving Repr, DecidableEq

/-! ## Savings model methods -/

/-- `savingsSchema.methods.isCycleTransferred`. -/
def Savings.isCycleTransferred (s : Savings) (month year : ℤ) : Bool :=
  s.transferredCycles.any fun c => c.month == month && c.year == year

/-- `savingsSchema.methods.addTransferredCycle`. -/
def Savings.addTransferredCycle (s : Savings) (month year : ℤ) (amount : ℚ)
    (now : ℤ) : Savings :=
  { s with transferredCycles :=
      s.transferredCycles ++ [⟨month, year, amount, now⟩] }

/-- The zero-balance record `getOrCreateSavings` creates on first access. -/
def zeroSavings : Savings :=
  { balance := 0, totalDeposits := 0, totalWithdrawals := 0,
    lastTransactionDate := none, transferredCycles := [] }

/-! ## SavingsService -/

/-- `SavingsService.getOrCreateSavings`: returns the owner's record,
creating (and persisting) a zero-balance one when none exists.  The
creation happens outside any session in the source, so it survives a later
abort of the enclosing operation. -/
def getOrCreateSavings (st : SavingsState) : Savings × SavingsState :=
  match st.savings with
  | some s => (s, st)
  | none => (zeroSavings, { st with savings := some zeroSavings })

/-- `SavingsService.getMonthName`. -/
def getMonthName (month : ℤ) : String :=
  let months := ["January", "February", "March", "April", "May", "June",
    "July", "August", "September", "October", "November", "December"]
  if month < 1 then "Unknown" else months.getD (month - 1).toNat "Unknown"

/-- `SavingsService.formatDateRange` (short en-US date range). -/
def formatDateRange (startDate endDate : ℤ) : String :=
  if yearOfMs startDate == yearOfMs endDate then
    formatShortDate startDate ++ " - " ++ formatShortDateYear endDate
  else
    formatShortDateYear startDate ++ " - " ++ formatShortDateYear endDate

/-- `SavingsService.getDefaultDescription`. -/
def getDefaultDescription (source : String) (stType : String)
    (budgetCycle : Option BudgetCycle) : String :=
  let cycleStr := match budgetCycle with
    | some c => " for " ++ toString c.month ++ "/" ++ toString c.year
    | none => ""
  if source == "budget_surplus" then "Budget surplus transfer" ++ cycleStr
  else if source == "budget_remainder" then "Budget remainder transfer"
  else if source == "budget_overrun" then "Budget overrun coverage" ++ cycleStr
  else if source == "manual" then
    (if stType == "credit" then "Manual deposit" else "Manual withdrawal")
  else if source == "goal_contribution" then "Savings goal contribution"
  else if source == "interest" then "Interest earned"
  else "Savings transaction"

/-- The duplicate budget-cycle guard at the top of `deposit`. -/
def depositDup (savings : Savings) (source : String)
    (budgetCycle : Option BudgetCycle) : Bool :=
  match budgetCycle with
  | some c => source == "budget_surplus" &&
      savings.isCycleTransferred c.month c.year
  | none => false

/-- The savings record as `deposit` rewrites it before saving: balance and
`totalDeposits` incremented, `lastTransactionDate` stamped, and the cycle
appended when the source is the legacy `budget_surplus` path. -/
def depositUpdated (savings : Savings) (now : ℤ) (amount : ℚ)
    (source : String) (budgetCycle : Option BudgetCycle) : Savings :=
  let s' := { savings with
    balance := savings.balance + amount,
    totalDeposits := savings.totalDeposits + amount,
    lastTransactionDate := some now }
  match budgetCycle with
  | some c =>
      if source = "budget_surplus" then
        s'.addTransferredCycle c.month c.year amount now
      else s'
  | none => s'

/-- The audit record `deposit` creates. -/
def depositTx (savings : Savings) (amount : ℚ)
    (source description : String) (budgetCycle : Option BudgetCycle)
    (relatedBudgetId : Option ℕ) : SavingsTransaction :=
  { stType := "credit", amount := amount, source := source,
    description :=
      if description = "" then
        getDefaultDescription source "credit" budgetCycle
      else description,
    budgetCycle := budgetCycle, balanceAfter := savings.balance + amount,
    relatedBudgetId := relatedBudgetId }

/-- `SavingsService.deposit`: all-or-nothing credit.  Returns the state
after the call and either the created `SavingsTransaction` or the error
that aborted the session.  On an error the state is exactly the state
after `getOrCreateSavings` (whose creation is not part of the session). -/
def deposit (st : SavingsState) (now : ℤ) (amount : ℚ) (source : String)
    (description : String) (budgetCycle : Option BudgetCycle)
    (relatedBudgetId : Option ℕ) :
    SavingsState × Except SvcError SavingsTransaction :=
  let (savings, st1) := getOrCreateSavings st
  -- duplicate budget-cycle check
  if depositDup savings source budgetCycle then
    (st1, .error .duplicateTransfer)
  else
    let s'' := depositUpdated savings now amount source budgetCycle
    -- savings.save({ session }): schema validation
    if ¬ savingsOk s'' then (st1, .error (.validationError "Savings"))
    else
      let tx := depositTx savings amount source description budgetCycle
        relatedBudgetId
      -- SavingsTransaction.create([...], { session }): schema validation
      if (1/100 : ℚ) ≤ tx.amount then
        if savingsTransactionSourceValues.contains tx.source then
          if savingsTransactionOk tx then
            ({ savings := some s'', txLog := st1.txLog ++ [tx] }, .ok tx)
          else (st1, .error (.validationError "SavingsTransaction"))
        else (st1, .error .invalidSource)
      else (st1, .error .invalidAmount)

/-- The savings record as `withdraw` rewrites it before saving. -/
def withdrawUpdated (savings : Savings) (now : ℤ) (amount : ℚ) : Savings :=
  { savings with
    balance := savings.balance - amount,
    totalWithdrawals := savings.totalWithdrawals + amount,
    lastTransactionDate := some now }

/-- The audit record `withdraw` creates. -/
def withdrawTx (savings : Savings) (amount : ℚ)
    (source description : String) (budgetCycle : Option BudgetCycle)
    (relatedBudgetId : Option ℕ) : SavingsTransaction :=
  { stType := "debit", amount := amount, source := source,
    description :=
      if description = "" then
        getDefaultDescription source "debit" budgetCycle
      else description,
    budgetCycle := budgetCycle, balanceAfter := savings.balance - amount,
    relatedBudgetId := relatedBudgetId }

/-- `SavingsService.withdraw`: all-or-nothing debit with a sufficiency
check before any mutation. -/
def withdraw (st : SavingsState) (now : ℤ) (amount : ℚ) (source : String)
    (description : String) (budgetCycle : Option BudgetCycle)
    (relatedBudgetId : Option ℕ) :
    SavingsState × Except SvcError SavingsTransaction :=
  let (savings, st1) := getOrCreateSavings st
  if savings.balance < amount then
    (st1, .error .insufficientBalance)
  else
    let s' := withdrawUpdated savings now amount
    if ¬ savingsOk s' then (st1, .error (.validationError "Savings"))
    else
      let tx := withdrawTx savings amount source description budgetCycle
        relatedBudgetId
      if (1/100 : ℚ) ≤ tx.amount then
        if savingsTransactionSourceValues.contains tx.source then
          if savingsTransactionOk tx then
            ({ savings := some s', txLog := st1.txLog ++ [tx] }, .ok tx)
          else (st1, .error (.validationError "SavingsTransaction"))
        else (st1, .error .invalidSource)
      else (st1, .error .invalidAmount)

/-! ## BudgetService -/

/-- JS `Math.round` (half away from zero is half toward `+∞` in JS). -/
def jsRound (q : ℚ) : ℤ := ⌊q + 1/2⌋

/-- `BudgetService.calculateSpendingForPeriod`: total of the owner's
expense transactions for one category with date in `[s, e]`. -/
def calculateSpendingForPeriod (env : Env) (userId categoryId : ℕ)
    (s e : ℤ) : ℚ :=
  ((env.transactions.filter fun t =>
      t.userId == userId && t.categoryId == categoryId &&
      t.ttype == "expense" && s ≤ t.date && t.date ≤ e).map
    (fun t => t.amount)).sum

/-- The spending view merged onto a budget by the service
(`{...budget, spent, remaining, percentage, isOverBudget}`). -/
structure BudgetView where
  budget : Budget
  spent : ℚ
  remaining : ℚ
  percentage : ℤ
  isOverBudget : Bool
  deriving Repr, DecidableEq

/-- Builds the merged view of a budget from its live spending. -/
def budgetView (env : Env) (userId : ℕ) (b : Budget) : BudgetView :=
  let spent := calculateSpendingForPeriod env userId b.categoryId
    b.startDate b.endDate
  { budget := b, spent := spent, remaining := b.amount - spent,
    percentage := jsRound (spent / b.amount * 100),
    isOverBudget := b.amount < spent }

/-- `budgetSchema.statics.checkOverlap`: first stored budget of the same
owner and category whose stored status is neither `completed` nor
`cancelled` and whose `[startDate, endDate]` meets the given interval. -/
def checkOverlap (budgets : List Budget) (userId categoryId : ℕ)
    (startDate endDate : ℤ) (excludeId : Option ℕ) : Option Budget :=
  budgets.find? fun b =>
    b.userId == userId && b.categoryId == categoryId &&
    !(["completed", "cancelled"].contains b.status) &&
    b.startDate ≤ endDate && startDate ≤ b.endDate &&
    (match excludeId with
     | some i => b.id != i
     | none => true)

/-- Input of `BudgetService.createOrUpdate` (request body fields). -/
structure BudgetInput where
  categoryId : ℕ
  amount : ℚ
  startDate : Option ℤ
  endDate : Option ℤ
  periodType : Option String
  month : Option ℤ
  year : Option ℤ
  notes : Option String
  deriving Repr, DecidableEq

/-- The budget document `createOrUpdate` persists: the initial status is
derived from `now` against the resolved period, and the `pre('save')` hook
fills `month`/`year` from the start date. -/
def newBudgetDoc (data : BudgetInput) (userId newId : ℕ) (now s e : ℤ)
    (pt : String) : Budget :=
  { id := newId, userId := userId, categoryId := data.categoryId,
    amount := data.amount, month := monthOfMs s, year := yearOfMs s,
    startDate := s, endDate := e, periodType := pt,
    status :=
      if s ≤ now ∧ now ≤ e then "active"
      else if e < now then "completed"
      else "upcoming",
    savingsTransferred := false, savingsTransferAmount := 0,
    savingsTransferDate := none, notes := data.notes.getD "" }

/-- `BudgetService.createOrUpdate`: validates the category, resolves the
period (explicit pair or legacy month/year), rejects overlaps, derives the
initial status from `now`, persists and returns the merged view.  `newId`
is the id the store assigns to the created document. -/
def createOrUpdate (env : Env) (budgets : List Budget) (now : ℤ)
    (data : BudgetInput) (userId newId : ℕ) :
    List Budget × Except SvcError BudgetView :=
  match env.categories.find? fun c =>
      c.id == data.categoryId && c.userId == userId with
  | none => (budgets, .error .notFound)
  | some category =>
    if category.ctype ≠ "expense" then (budgets, .error .invalidCategoryType)
    else
      let period : Except SvcError (ℤ × ℤ × String) :=
        match data.startDate, data.endDate with
        | some s, some e => .ok (s, e, data.periodType.getD "custom")
        | _, _ =>
          match data.month, data.year with
          | some m, some y => .ok (monthStartMs m y, monthEndMs m y, "monthly")
          | _, _ => .error .missingPeriod
      match period with
      | .error err => (budgets, .error err)
      | .ok (s, e, pt) =>
        match checkOverlap budgets userId data.categoryId s e none with
        | some _ => (budgets, .error .overlappingBudget)
        | none =>
          -- Budget.create, with the pre('save') hook filling month/year
          let b := newBudgetDoc data userId newId now s e pt
          if budgetOk b then (budgets ++ [b], .ok (budgetView env userId b))
          else (budgets, .error (.validationError "Budget"))

/-- Input of `BudgetService.update` (partial change set). -/
structure BudgetUpdate where
  amount : Option ℚ
  startDate : Option ℤ
  endDate : Option ℤ
  periodType : Option String
  notes : Option String
  deriving Repr, DecidableEq

/-- `BudgetService.update`: loads the owner's budget, refuses completed
budgets whose savings transfer happened, re-checks overlap when dates
change, recomputes the status from `now` and saves. -/
def updateBudget (env : Env) (budgets : List Budget) (now : ℤ)
    (budgetId : ℕ) (data : BudgetUpdate) (userId : ℕ) :
    List Budget × Except SvcError BudgetView :=
  match budgets.find? fun b => b.id == budgetId && b.userId == userId with
  | none => (budgets, .error .notFound)
  | some budget =>
    if budget.status = "completed" ∧ budget.savingsTransferred then
      (budgets, .error .immutable)
    else
      let dated : Except SvcError Budget :=
        if data.startDate.isSome || data.endDate.isSome then
          let newStart := data.startDate.getD budget.startDate
          let newEnd := data.endDate.getD budget.endDate
          match checkOverlap budgets userId budget.categoryId newStart newEnd
              (some budgetId) with
          | some _ => .error .overlappingBudget
          | none => .ok { budget with startDate := newStart, endDate := newEnd }
        else .ok budget
      match dated with
      | .error err => (budgets, .error err)
      | .ok b1 =>
        let b2 := { b1 with
          amount := data.amount.getD b1.amount,
          periodType := data.periodType.getD b1.periodType,
          notes := data.notes.getD b1.notes }
        let b3 := { b2 with status :=
          if now < b2.startDate then "upcoming"
          else if b2.startDate ≤ now ∧ now ≤ b2.endDate then "active"
          else "completed" }
        -- budget.save(): validation, then the pre('save') hook
        let b4 := { b3 with month := monthOfMs b3.startDate,
                            year := yearOfMs b3.startDate }
        if budgetOk b4 then
          (budgets.map fun b => if b.id == b4.id then b4 else b,
           .ok (budgetView env userId b4))
        else (budgets, .error (.validationError "Budget"))

/-- `BudgetService.markSavingsTransferred`: flags the owner's budget as
transferred with the amount and the current timestamp. -/
def markSavingsTransferred (budgets : List Budget) (now : ℤ)
    (budgetId userId : ℕ) (amount : ℚ) :
    List Budget × Except SvcError Budget :=
  match budgets.find? fun b => b.id == budgetId && b.userId == userId with
  | none => (budgets, .error .notFound)
  | some budget =>
    let b' := { budget with
      savingsTransferred := true, savingsTransferAmount := amount,
      savingsTransferDate := some now,
      month := monthOfMs budget.startDate, year := yearOfMs budget.startDate }
    if budgetOk b' then
      (budgets.map fun b => if b.id == b'.id then b' else b, .ok b')
    else (budgets, .error (.validationError "Budget"))

/-! ## Transfer orchestrator (SavingsService, continued) -/

/-- `SavingsService.getAvailableBalance`: lifetime income minus lifetime
expense minus the current savings balance, floored at zero.  Creates the
savings record when absent (it calls `getOrCreateSavings`). -/
def getAvailableBalance (env : Env) (st : SavingsState) (userId : ℕ) :
    ℚ × SavingsState :=
  let income := ((env.transactions.filter fun t =>
    t.userId == userId && t.ttype == "income").map (fun t => t.amount)).sum
  let expenses := ((env.transactions.filter fun t =>
    t.userId == userId && t.ttype == "expense").map (fun t => t.amount)).sum
  let (savings, st1) := getOrCreateSavings st
  (max 0 (income - expenses - savings.balance), st1)

/-- `SavingsService.manualContribution`: guards the amount against the
available balance (and positivity), then deposits with source `manual`. -/
def manualContribution (env : Env) (st : SavingsState) (now : ℤ)
    (userId : ℕ) (amount : ℚ) (description : String) :
    SavingsState × Except SvcError SavingsTransaction :=
  let (availableBalance, st1) := getAvailableBalance env st userId
  if availableBalance < amount then
    (st1, .error .insufficientAvailableBalance)
  else if amount ≤ 0 then
    (st1, .error .invalidAmount)
  else
    deposit st1 now amount "manual"
      (if description = "" then "Manual savings contribution" else description)
      none none

/-- `SavingsService.transferBudgetRemainder`: deposits the remaining
amount of a finished, not-yet-transferred budget into savings with source
`budget_remainder`, then marks the budget transferred. -/
def transferBudgetRemainder (env : Env) (budgets : List Budget)
    (st : SavingsState) (now : ℤ) (userId budgetId : ℕ) :
    List Budget × SavingsState × Except SvcError (SavingsTransaction × ℚ) :=
  match budgets.find? fun b => b.id == budgetId && b.userId == userId with
  | none => (budgets, st, .error .notFound)
  | some budget =>
    -- populate('categoryId', 'name')
    match env.categories.find? fun c => c.id == budget.categoryId with
    | none => (budgets, st, .error (.validationError "categoryId"))
    | some category =>
      if budget.savingsTransferred then
        (budgets, st, .error .alreadyTransferred)
      else
        let spent := calculateSpendingForPeriod env userId budget.categoryId
          budget.startDate budget.endDate
        let remaining := budget.amount - spent
        if remaining ≤ 0 then (budgets, st, .error .nothingToTransfer)
        else
          let period := formatDateRange budget.startDate budget.endDate
          let (st1, r) := deposit st now remaining "budget_remainder"
            ("Budget remainder: " ++ category.name ++ " (" ++ period ++ ")")
            (some ⟨budget.month, budget.year⟩) (some budgetId)
          match r with
          | .error err => (budgets, st1, .error err)
          | .ok tx =>
            let (budgets', rb) :=
              markSavingsTransferred budgets now budgetId userId remaining
            match rb with
            | .error err => (budgets', st1, .error err)
            | .ok _ => (budgets', st1, .ok (tx, remaining))

/-- The overrun `coverBudgetOverrunById` computes: live spending over the
budget's period minus the budget amount. -/
def overrunOf (env : Env) (userId : ℕ) (b : Budget) : ℚ :=
  calculateSpendingForPeriod env userId b.categoryId b.startDate b.endDate
    - b.amount

/-- The cover amount: the requested amount capped by the overrun, or the
full overrun when no amount is requested. -/
def coverAmountOf (env : Env) (userId : ℕ) (b : Budget)
    (amount : Option ℚ) : ℚ :=
  match amount with
  | some a => min a (overrunOf env userId b)
  | none => overrunOf env userId b

/-- The description `coverBudgetOverrunById` passes to `withdraw`. -/
def overrunDesc (category : Category) (b : Budget) : String :=
  "Overrun coverage: " ++ category.name ++ " (" ++
    formatDateRange b.startDate b.endDate ++ ")"

/-- `SavingsService.coverBudgetOverrunById`: withdraws the overrun of the
owner's budget (capped by the optional requested amount) from savings with
source `budget_overrun`. -/
def coverBudgetOverrunById (env : Env) (budgets : List Budget)
    (st : SavingsState) (now : ℤ) (userId budgetId : ℕ)
    (amount : Option ℚ) :
    SavingsState × Except SvcError (SavingsTransaction × ℚ) :=
  match budgets.find? fun b => b.id == budgetId && b.userId == userId with
  | none => (st, .error .notFound)
  | some budget =>
    match env.categories.find? fun c => c.id == budget.categoryId with
    | none => (st, .error (.validationError "categoryId"))
    | some category =>
      if overrunOf env userId budget ≤ 0 then (st, .error .notOverrun)
      else
        let coverAmount := coverAmountOf env userId budget amount
        let (savings, st1) := getOrCreateSavings st
        if savings.balance < coverAmount then
          (st1, .error .insufficientSavings)
        else
          let (st2, r) := withdraw st1 now coverAmount "budget_overrun"
            (overrunDesc category budget)
            (some ⟨budget.month, budget.year⟩) (some budgetId)
          (st2, r.map fun tx => (tx, coverAmount))

/-- Result of `SavingsService.calculateBudgetRemaining`. -/
structure BudgetRemaining where
  totalBudget : ℚ
  totalSpent : ℚ
  remaining : ℚ
  deriving Repr, DecidableEq

/-- `SavingsService.calculateBudgetRemaining`: total of the owner's budget
amounts stored for the (legacy) month/year, minus the owner's total
expenses dated inside that month. -/
def calculateBudgetRemaining (env : Env) (budgets : List Budget)
    (userId : ℕ) (month year : ℤ) : BudgetRemaining :=
  let totalBudget := ((budgets.filter fun b =>
    b.userId == userId && b.month == month && b.year == year).map
    (fun b => b.amount)).sum
  let totalSpent := ((env.transactions.filter fun t =>
    t.userId == userId && t.ttype == "expense" &&
    monthStartMs month year ≤ t.date && t.date ≤ monthEndMs month year).map
    (fun t => t.amount)).sum
  { totalBudget := totalBudget, totalSpent := totalSpent,
    remaining := totalBudget - totalSpent }

/-- `SavingsService.transferBudgetSurplus` (legacy monthly-cycle flow):
deposits the month's remaining budget with source `budget_surplus` and the
budget cycle tag, relying on the ledger's duplicate-cycle check. -/
def transferBudgetSurplus (env : Env) (budgets : List Budget)
    (st : SavingsState) (now : ℤ) (userId : ℕ) (month year : ℤ) :
    SavingsState × Except SvcError (SavingsTransaction × ℚ) :=
  let r := calculateBudgetRemaining env budgets userId month year
  if r.remaining ≤ 0 then (st, .error .nothingToTransfer)
  else
    let (st1, dr) := deposit st now r.remaining "budget_surplus"
      ("Budget surplus from " ++ getMonthName month ++ " " ++ toString year)
      (some ⟨month, year⟩) none
    (st1, dr.map fun tx => (tx, r.remaining))

/-! ## Concrete fixtures

Small concrete stores used below to exercise the operations; dates are
plain millisecond timestamps. -/

def groceries : Category := ⟨1, 1, "Groceries", "expense"⟩

/-- One expense category, no transactions. -/
def envNoSpend : Env := { categories := [groceries], transactions := [] }

/-- The owner spent 150 on category 1 at time 150. -/
def envOverrun : Env :=
  { categories := [groceries], transactions := [⟨1, 1, "expense", 150, 150⟩] }

/-- A single income of 100 and nothing else. -/
def envIncome : Env :=
  { categories := [], transactions := [⟨1, 5, "income", 100, 50⟩] }

/-- A completed legacy-cycle (1/2024) budget of 300 over `[100, 200]`. -/
def budgetJan : Budget :=
  { id := 1, userId := 1, categoryId := 1, amount := 300, month := 1,
    year := 2024, startDate := 100, endDate := 200,
    periodType := "monthly", status := "completed",
    savingsTransferred := false, savingsTransferAmount := 0,
    savingsTransferDate := none, notes := "" }

/-- The same budget with amount 100, overrun by 50 under `envOverrun`. -/
def budgetOver : Budget := { budgetJan with amount := 100 }

def stZero : SavingsState := ⟨some zeroSavings, []⟩

/-- A savings record holding 60. -/
def sixtySavings : Savings :=
  { balance := 60, totalDeposits := 60, totalWithdrawals := 0,
    lastTransactionDate := none, transferredCycles := [] }

def stSixty : SavingsState := ⟨some sixtySavings, []⟩

/-- Creation input for the (past) period `[100, 200]` of category 1. -/
def inpPast : BudgetInput :=
  { categoryId := 1, amount := 300, startDate := some 100,
    endDate := some 200, periodType := none, month := none, year := none,
    notes := none }

/-- `budgetJan` while still running. -/
def budgetActive : Budget := { budgetJan with status := "active" }

/-- A second budget of the same owner and category over `[300, 400]`. -/
def budgetFar : Budget :=
  { budgetJan with id := 2, startDate := 300, endDate := 400 }

/-! ## Invariants and helper lemmas -/

/-- The savings-account invariant: the balance is the difference of the
aggregate counters and is never negative. -/
def savingsInv (s : Savings) : Prop :=
  s.balance = s.totalDeposits - s.totalWithdrawals ∧ 0 ≤ s.balance

/-- The invariant lifted to the owner's store. -/
def stateInv (st : SavingsState) : Prop :=
  ∀ s, st.savings = some s → savingsInv s

lemma savingsInv_zero : savingsInv zeroSavings := by
  constructor <;> norm_num [zeroSavings]

lemma getOrCreateSavings_some {st : SavingsState} {s : Savings}
    (h : st.savings = some s) : getOrCreateSavings st = (s, st) := by
  simp [getOrCreateSavings, h]

lemma getOrCreateSavings_savings (st : SavingsState) :
    (getOrCreateSavings st).2.savings = some (getOrCreateSavings st).1 := by
  cases h : st.savings <;> simp [getOrCreateSavings, h]

lemma getOrCreateSavings_txLog (st : SavingsState) :
    (getOrCreateSavings st).2.txLog = st.txLog := by
  cases h : st.savings <;> simp [getOrCreateSavings, h]

lemma getOrCreateSavings_inv {st : SavingsState} (h : stateInv st) :
    savingsInv (getOrCreateSavings st).1 ∧
      stateInv (getOrCreateSavings st).2 := by
  cases hs : st.savings with
  | none =>
      constructor
      · simpa [getOrCreateSavings, hs] using savingsInv_zero
      · intro s hs'
        simp [getOrCreateSavings, hs] at hs'
        simpa [← hs'] using savingsInv_zero
  | some s =>
      refine ⟨by simpa [getOrCreateSavings, hs] using h s hs, ?_⟩
      intro s' hs'
      rw [getOrCreateSavings_some hs] at hs'
      exact h s' hs'

lemma depositUpdated_fields (s : Savings) (now : ℤ) (a : ℚ) (src : String)
    (cyc : Option BudgetCycle) :
    (depositUpdated s now a src cyc).balance = s.balance + a ∧
    (depositUpdated s now a src cyc).totalDeposits = s.totalDeposits + a ∧
    (depositUpdated s now a src cyc).totalWithdrawals = s.totalWithdrawals := by
  cases cyc with
  | none => exact ⟨rfl, rfl, rfl⟩
  | some c =>
      by_cases h : src = "budget_surplus" <;>
        simp [depositUpdated, Savings.addTransferredCycle, h]

/-- Every run of `deposit` either aborts — leaving the store exactly as
`getOrCreateSavings` left it — or commits the full update. -/
lemma deposit_err_or_ok (st : SavingsState) (now : ℤ) (a : ℚ)
    (src d : String) (cyc : Option BudgetCycle) (rb : Option ℕ) :
    (∃ e, deposit st now a src d cyc rb =
      ((getOrCreateSavings st).2, Except.error e)) ∨
    (deposit st now a src d cyc rb =
      ({ savings := some (depositUpdated (getOrCreateSavings st).1 now a src cyc),
         txLog := (getOrCreateSavings st).2.txLog ++
           [depositTx (getOrCreateSavings st).1 a src d cyc rb] },
       Except.ok (depositTx (getOrCreateSavings st).1 a src d cyc rb)) ∧
      savingsOk (depositUpdated (getOrCreateSavings st).1 now a src cyc) = true ∧
      (1/100 : ℚ) ≤ a ∧
      savingsTransactionSourceValues.contains src = true ∧
      depositDup (getOrCreateSavings st).1 src cyc = false) := by
  rcases hp : getOrCreateSavings st with ⟨sv, st1⟩
  simp only [deposit, hp]
  split_ifs with h1 h2 h3 h4 h5
  · exact .inl ⟨.duplicateTransfer, rfl⟩
  · exact .inr ⟨rfl, h2, h3, h4, by simpa using h1⟩
  · exact .inl ⟨.validationError "SavingsTransaction", rfl⟩
  · exact .inl ⟨.invalidSource, rfl⟩
  · exact .inl ⟨.invalidAmount, rfl⟩
  · exact .inl ⟨.validationError "Savings", rfl⟩

/-- Every run of `withdraw` either aborts or commits the full update. -/
lemma withdraw_err_or_ok (st : SavingsState) (now : ℤ) (a : ℚ)
    (src d : String) (cyc : Option BudgetCycle) (rb : Option ℕ) :
    (∃ e, withdraw st now a src d cyc rb =
      ((getOrCreateSavings st).2, Except.error e)) ∨
    (withdraw st now a src d cyc rb =
      ({ savings := some (withdrawUpdated (getOrCreateSavings st).1 now a),
         txLog := (getOrCreateSavings st).2.txLog ++
           [withdrawTx (getOrCreateSavings st).1 a src d cyc rb] },
       Except.ok (withdrawTx (getOrCreateSavings st).1 a src d cyc rb)) ∧
      savingsOk (withdrawUpdated (getOrCreateSavings st).1 now a) = true ∧
      (1/100 : ℚ) ≤ a ∧
      savingsTransactionSourceValues.contains src = true ∧
      ¬ (getOrCreateSavings st).1.balance < a) := by
  rcases hp : getOrCreateSavings st with ⟨sv, st1⟩
  simp only [withdraw, hp]
  split_ifs with h1 h2 h3 h4 h5
  · exact .inl ⟨.insufficientBalance, rfl⟩
  · exact .inr ⟨rfl, h2, h3, h4, h1⟩
  · exact .inl ⟨.validationError "SavingsTransaction", rfl⟩
  · exact .inl ⟨.invalidSource, rfl⟩
  · exact .inl ⟨.invalidAmount, rfl⟩
  · exact .inl ⟨.validationError "Savings", rfl⟩

lemma savingsOk_balance {s : Savings} (h : savingsOk s = true) :
    0 ≤ s.balance := by
  simp only [savingsOk, Bool.and_eq_true, decide_eq_true_eq] at h
  exact h.1.1.1

/-! ## Claims -/

/-- **C1**: for every `Savings` record, starting from the zero-balance
record `getOrCreateSavings` creates, `balance = totalDeposits -
totalWithdrawals` holds after every `deposit` and every `withdraw` call;
a failed call leaves the store unchanged, and the balance is never
negative. -/
theorem savings_ledger_invariant :
    savingsInv zeroSavings ∧
    (getOrCreateSavings ⟨none, []⟩).1 = zeroSavings ∧
    ∀ st now a src d cyc rb,
      stateInv st →
      stateInv (deposit st now a src d cyc rb).1 ∧
      ((deposit st now a src d cyc rb).2.isOk = false →
        ∀ s, st.savings = some s → (deposit st now a src d cyc rb).1 = st) ∧
      stateInv (withdraw st now a src d cyc rb).1 ∧
      ((withdraw st now a src d cyc rb).2.isOk = false →
        ∀ s, st.savings = some s → (withdraw st now a src d cyc rb).1 = st) := by
  refine ⟨savingsInv_zero, rfl, ?_⟩
  intro st now a src d cyc rb hInv
  obtain ⟨hInv1, hInv2⟩ := getOrCreateSavings_inv hInv
  refine ⟨?_, ?_, ?_, ?_⟩
  · rcases deposit_err_or_ok st now a src d cyc rb with ⟨e, he⟩ | ⟨heq, hok, -⟩
    · rw [he]; exact hInv2
    · rw [heq]
      intro s hs
      simp only [Option.some.injEq] at hs
      subst hs
      obtain ⟨hb, hd, hw⟩ := depositUpdated_fields (getOrCreateSavings st).1
        now a src cyc
      refine ⟨?_, ?_⟩
      · rw [hb, hd, hw, hInv1.1]; ring
      · exact savingsOk_balance hok
  · intro hfail s hs
    rcases deposit_err_or_ok st now a src d cyc rb with ⟨e, he⟩ | ⟨heq, -⟩
    · rw [he, getOrCreateSavings_some hs]
    · rw [heq] at hfail
      simp [Except.isOk, Except.toBool] at hfail
  · rcases withdraw_err_or_ok st now a src d cyc rb with ⟨e, he⟩ | ⟨heq, hok, -⟩
    · rw [he]; exact hInv2
    · rw [heq]
      intro s hs
      simp only [Option.some.injEq] at hs
      subst hs
      refine ⟨?_, ?_⟩
      · simp only [withdrawUpdated]
        rw [hInv1.1]; ring
      · exact savingsOk_balance hok
  · intro hfail s hs
    rcases withdraw_err_or_ok st now a src d cyc rb with ⟨e, he⟩ | ⟨heq, -⟩
    · rw [he, getOrCreateSavings_some hs]
    · rw [heq] at hfail
      simp [Except.isOk, Except.toBool] at hfail

/-- Witness for C1 at a concrete store and deposit. -/
theorem savings_ledger_invariant_witness :
    stateInv ⟨some zeroSavings, []⟩ ∧
    stateInv (deposit ⟨some zeroSavings, []⟩ 0 50 "manual" "" none none).1 := by
  have hst : stateInv ⟨some zeroSavings, []⟩ := by
    intro s hs
    simp only [Option.some.injEq] at hs
    subst hs
    exact savingsInv_zero
  exact ⟨hst,
    (savings_ledger_invariant.2.2 ⟨some zeroSavings, []⟩ 0 50 "manual" ""
      none none hst).1⟩

/-- **C8**: for every `amount ≤ 0`, the ledger's own `deposit` and
`withdraw` refuse the call and leave the owner's `Savings` record and
`SavingsTransaction` log unchanged, independently of orchestrator-level
validation; whenever the refusal is not pre-empted by the duplicate-cycle
guard or by the `Savings` document's own validation, the error is
precisely the amount validation (`InvalidAmount`). -/
theorem ledger_refuses_nonpositive_amounts
    (st : SavingsState) (s : Savings) (now : ℤ) (a : ℚ) (src d : String)
    (cyc : Option BudgetCycle) (rb : Option ℕ)
    (hs : st.savings = some s) (ha : a ≤ 0) :
    ((deposit st now a src d cyc rb).1 = st ∧
      ∃ e, (deposit st now a src d cyc rb).2 = .error e) ∧
    ((withdraw st now a src d cyc rb).1 = st ∧
      ∃ e, (withdraw st now a src d cyc rb).2 = .error e) ∧
    (depositDup s src cyc = false →
      savingsOk (depositUpdated s now a src cyc) = true →
      (deposit st now a src d cyc rb).2 = .error .invalidAmount) ∧
    (0 ≤ s.balance → savingsOk (withdrawUpdated s now a) = true →
      (withdraw st now a src d cyc rb).2 = .error .invalidAmount) := by
  have hlt : ¬ (1/100 : ℚ) ≤ a := by linarith
  refine ⟨?_, ?_, ?_, ?_⟩
  · rcases deposit_err_or_ok st now a src d cyc rb with ⟨e, he⟩ | ⟨-, -, h100, -⟩
    · rw [he, getOrCreateSavings_some hs]
      exact ⟨rfl, e, rfl⟩
    · exact absurd h100 hlt
  · rcases withdraw_err_or_ok st now a src d cyc rb with ⟨e, he⟩ | ⟨-, -, h100, -⟩
    · rw [he, getOrCreateSavings_some hs]
      exact ⟨rfl, e, rfl⟩
    · exact absurd h100 hlt
  · intro hdup hok
    simp only [deposit, getOrCreateSavings_some hs]
    split_ifs with h1 h2 h3 h4
    · exact absurd h1 (by simp [hdup])
    · exact absurd (show (1/100 : ℚ) ≤ a from h2) hlt
    · exact absurd (show (1/100 : ℚ) ≤ a from h2) hlt
    · exact absurd (show (1/100 : ℚ) ≤ a from h2) hlt
    · rfl
  · intro hbal hok
    simp only [withdraw, getOrCreateSavings_some hs]
    split_ifs with h1 h2 h3 h4
    · exact absurd h1 (not_lt.mpr (ha.trans hbal))
    · exact absurd (show (1/100 : ℚ) ≤ a from h2) hlt
    · exact absurd (show (1/100 : ℚ) ≤ a from h2) hlt
    · exact absurd (show (1/100 : ℚ) ≤ a from h2) hlt
    · rfl

/-- Witness for C8 at `amount = 0` on a fresh zero-balance record. -/
theorem ledger_refuses_nonpositive_amounts_witness :
    (deposit ⟨some zeroSavings, []⟩ 0 0 "manual" "" none none).1 =
      ⟨some zeroSavings, []⟩ ∧
    (deposit ⟨some zeroSavings, []⟩ 0 0 "manual" "" none none).2 =
      .error .invalidAmount ∧
    (withdraw ⟨some zeroSavings, []⟩ 0 0 "manual" "" none none).2 =
      .error .invalidAmount := by
  have h := ledger_refuses_nonpositive_amounts ⟨some zeroSavings, []⟩
    zeroSavings 0 0 "manual" "" none none rfl le_rfl
  refine ⟨h.1.1, h.2.2.1 (by simp [depositDup]) ?_, h.2.2.2 (le_refl 0) ?_⟩
  · simp [savingsOk, depositUpdated, zeroSavings]
  · simp [savingsOk, withdrawUpdated, zeroSavings]

lemma depositUpdated_cycle_mem (sv : Savings) (now : ℤ) (a : ℚ)
    (c : BudgetCycle) :
    (depositUpdated sv now a "budget_surplus" (some c)).isCycleTransferred
      c.month c.year = true := by
  simp [depositUpdated, Savings.addTransferredCycle, Savings.isCycleTransferred]

/-- **C3**: if `transferBudgetSurplus(owner, m, y)` succeeds, a second call
with the same cycle — against any later budget/transaction environment —
fails (`DuplicateTransfer` while the remaining is still positive,
`NothingToTransfer` otherwise) and leaves the savings store, hence the
balance, `totalDeposits` and `transferredCycles`, unchanged. -/
theorem transferBudgetSurplus_idempotent
    (env env' : Env) (budgets budgets' : List Budget) (st : SavingsState)
    (now now' : ℤ) (userId : ℕ) (month year : ℤ)
    (hok : (transferBudgetSurplus env budgets st now userId month year).2.isOk
      = true) :
    (transferBudgetSurplus env' budgets'
        (transferBudgetSurplus env budgets st now userId month year).1
        now' userId month year).1 =
      (transferBudgetSurplus env budgets st now userId month year).1 ∧
    (0 < (calculateBudgetRemaining env' budgets' userId month year).remaining →
      (transferBudgetSurplus env' budgets'
          (transferBudgetSurplus env budgets st now userId month year).1
          now' userId month year).2 = .error .duplicateTransfer) ∧
    ((calculateBudgetRemaining env' budgets' userId month year).remaining ≤ 0 →
      (transferBudgetSurplus env' budgets'
          (transferBudgetSurplus env budgets st now userId month year).1
          now' userId month year).2 = .error .nothingToTransfer) := by
  by_cases hr :
      (calculateBudgetRemaining env budgets userId month year).remaining ≤ 0
  · rw [transferBudgetSurplus] at hok
    simp [hr, Except.isOk, Except.toBool] at hok
  · -- the first call deposited; its state carries the recorded cycle
    have hfirst :
        (transferBudgetSurplus env budgets st now userId month year) =
        ((deposit st now
            (calculateBudgetRemaining env budgets userId month year).remaining
            "budget_surplus"
            ("Budget surplus from " ++ getMonthName month ++ " " ++
              toString year)
            (some ⟨month, year⟩) none).1,
          (deposit st now
            (calculateBudgetRemaining env budgets userId month year).remaining
            "budget_surplus"
            ("Budget surplus from " ++ getMonthName month ++ " " ++
              toString year)
            (some ⟨month, year⟩) none).2.map
            (fun tx =>
              (tx, (calculateBudgetRemaining env budgets userId month
                year).remaining))) := by
      rw [transferBudgetSurplus]
      simp only [hr, if_false]
    rcases deposit_err_or_ok st now
        (calculateBudgetRemaining env budgets userId month year).remaining
        "budget_surplus"
        ("Budget surplus from " ++ getMonthName month ++ " " ++ toString year)
        (some ⟨month, year⟩) none with ⟨e, he⟩ | ⟨heq, -, -, -, -⟩
    · rw [hfirst, he] at hok
      simp [Except.isOk, Except.toBool, Except.map] at hok
    · have hst1 :
          (transferBudgetSurplus env budgets st now userId month year).1.savings
            = some (depositUpdated (getOrCreateSavings st).1 now
                (calculateBudgetRemaining env budgets userId month
                  year).remaining "budget_surplus" (some ⟨month, year⟩)) := by
        rw [hfirst, heq]
      have hdup2 : depositDup
          (depositUpdated (getOrCreateSavings st).1 now
            (calculateBudgetRemaining env budgets userId month year).remaining
            "budget_surplus" (some ⟨month, year⟩))
          "budget_surplus" (some ⟨month, year⟩) = true := by
        simp [depositDup]
        exact depositUpdated_cycle_mem (getOrCreateSavings st).1 now
          (calculateBudgetRemaining env budgets userId month year).remaining
          ⟨month, year⟩
      by_cases hr' :
          (calculateBudgetRemaining env' budgets' userId month year).remaining
            ≤ 0
      · refine ⟨?_, fun hpos => absurd hr' (by linarith), fun _ => ?_⟩ <;>
          · rw [transferBudgetSurplus]
            simp [hr']
      · have hsecond :
            deposit (transferBudgetSurplus env budgets st now userId month
                year).1 now'
              (calculateBudgetRemaining env' budgets' userId month
                year).remaining "budget_surplus"
              ("Budget surplus from " ++ getMonthName month ++ " " ++
                toString year)
              (some ⟨month, year⟩) none =
            ((transferBudgetSurplus env budgets st now userId month year).1,
              .error .duplicateTransfer) := by
          rw [deposit, getOrCreateSavings_some hst1]
          simp [hdup2]
        refine ⟨?_, fun _ => ?_, fun hle => absurd hle hr'⟩
        · rw [transferBudgetSurplus]
          simp only [hr', if_false]
          rw [hsecond]
        · rw [transferBudgetSurplus]
          simp only [hr', if_false]
          rw [hsecond]
          simp [Except.map]

lemma savingsTransactionOk_parts {t : SavingsTransaction}
    (h : savingsTransactionOk t = true) :
    (1/100 : ℚ) ≤ t.amount ∧
      savingsTransactionSourceValues.contains t.source = true := by
  simp only [savingsTransactionOk, Bool.and_eq_true, decide_eq_true_eq] at h
  exact ⟨h.1.1.1.1.2, h.1.1.1.2⟩

/-- A deposit whose updated record and audit record both pass validation,
and whose cycle is not a duplicate, commits in full. -/
lemma deposit_ok {st : SavingsState} {s : Savings} (hs : st.savings = some s)
    (now : ℤ) (a : ℚ) (src d : String) (cyc : Option BudgetCycle)
    (rb : Option ℕ)
    (hdup : depositDup s src cyc = false)
    (hok1 : savingsOk (depositUpdated s now a src cyc) = true)
    (hok2 : savingsTransactionOk (depositTx s a src d cyc rb) = true) :
    deposit st now a src d cyc rb =
      ({ savings := some (depositUpdated s now a src cyc),
         txLog := st.txLog ++ [depositTx s a src d cyc rb] },
       .ok (depositTx s a src d cyc rb)) := by
  obtain ⟨h100, hsrc⟩ := savingsTransactionOk_parts hok2
  simp only [deposit, getOrCreateSavings_some hs]
  rw [if_neg (by simp [hdup]), if_neg (not_not_intro hok1), if_pos h100,
    if_pos hsrc, if_pos hok2]

/-- A withdrawal with a sufficient balance and passing validations commits
in full. -/
lemma withdraw_ok {st : SavingsState} {s : Savings} (hs : st.savings = some s)
    (now : ℤ) (a : ℚ) (src d : String) (cyc : Option BudgetCycle)
    (rb : Option ℕ)
    (hbal : ¬ s.balance < a)
    (hok1 : savingsOk (withdrawUpdated s now a) = true)
    (hok2 : savingsTransactionOk (withdrawTx s a src d cyc rb) = true) :
    withdraw st now a src d cyc rb =
      ({ savings := some (withdrawUpdated s now a),
         txLog := st.txLog ++ [withdrawTx s a src d cyc rb] },
       .ok (withdrawTx s a src d cyc rb)) := by
  obtain ⟨h100, hsrc⟩ := savingsTransactionOk_parts hok2
  simp only [withdraw, getOrCreateSavings_some hs]
  rw [if_neg hbal, if_neg (not_not_intro hok1), if_pos h100,
    if_pos hsrc, if_pos hok2]

/-- Witness for C3: the 1/2024 surplus of 300 transfers once; the second
identical call fails `DuplicateTransfer`. -/
theorem transferBudgetSurplus_idempotent_witness :
    (transferBudgetSurplus envNoSpend [budgetJan] stZero 300 1 1 2024).2.isOk
      = true ∧
    (transferBudgetSurplus envNoSpend [budgetJan]
        (transferBudgetSurplus envNoSpend [budgetJan] stZero 300 1 1 2024).1
        300 1 1 2024).2 = .error .duplicateTransfer := by
  have hok : (transferBudgetSurplus envNoSpend [budgetJan] stZero 300 1 1
      2024).2.isOk = true := by
    norm_num [transferBudgetSurplus, calculateBudgetRemaining, envNoSpend,
      budgetJan, stZero, deposit, getOrCreateSavings, zeroSavings, depositDup,
      depositUpdated, depositTx, savingsOk, savingsTransactionOk,
      savingsTransactionSourceValues, Savings.isCycleTransferred,
      Savings.addTransferredCycle, transferredCycleOk, budgetCycleOk,
      getDefaultDescription, getMonthName, Except.isOk, Except.toBool,
      Except.map]
    decide
  refine ⟨hok, ?_⟩
  refine (transferBudgetSurplus_idempotent envNoSpend envNoSpend [budgetJan]
    [budgetJan] stZero 300 300 1 1 2024 hok).2.1 ?_
  norm_num [calculateBudgetRemaining, envNoSpend, budgetJan]

/-- A deposit with source `budget_remainder` can never commit: the source
enum of the `SavingsTransaction` schema rejects it. -/
lemma deposit_budget_remainder_fails (st : SavingsState) (now : ℤ) (a : ℚ)
    (d : String) (cyc : Option BudgetCycle) (rb : Option ℕ) :
    (deposit st now a "budget_remainder" d cyc rb).2.isOk = false := by
  rcases deposit_err_or_ok st now a "budget_remainder" d cyc rb with
    ⟨e, he⟩ | ⟨heq, -, -, hsrc, -⟩
  · rw [he]
    rfl
  · exact absurd hsrc (by decide)

/-- **C2** (code bug): the `source` enum of the `SavingsTransaction`
schema omits `budget_remainder`, so the deposit step of
`transferBudgetRemainder` always aborts: for every store and every input
the call fails, and no budget is ever created, modified or marked
transferred by it. -/
theorem transferBudgetRemainder_never_succeeds
    (env : Env) (budgets : List Budget) (st : SavingsState) (now : ℤ)
    (userId budgetId : ℕ) :
    (transferBudgetRemainder env budgets st now userId budgetId).2.2.isOk
      = false ∧
    (transferBudgetRemainder env budgets st now userId budgetId).1
      = budgets := by
  unfold transferBudgetRemainder
  cases hb : budgets.find? fun b => b.id == budgetId && b.userId == userId with
  | none => exact ⟨rfl, rfl⟩
  | some budget =>
    dsimp only
    cases hc : env.categories.find? fun c => c.id == budget.categoryId with
    | none => exact ⟨rfl, rfl⟩
    | some category =>
      dsimp only
      split_ifs with h1 h2
      · exact ⟨rfl, rfl⟩
      · exact ⟨rfl, rfl⟩
      · have hfail := deposit_budget_remainder_fails st now
          (budget.amount - calculateSpendingForPeriod env userId
            budget.categoryId budget.startDate budget.endDate)
          ("Budget remainder: " ++ category.name ++ " (" ++
            formatDateRange budget.startDate budget.endDate ++ ")")
          (some { month := budget.month, year := budget.year })
          (some budgetId)
        rcases hd : deposit st now
          (budget.amount - calculateSpendingForPeriod env userId
            budget.categoryId budget.startDate budget.endDate)
          "budget_remainder"
          ("Budget remainder: " ++ category.name ++ " (" ++
            formatDateRange budget.startDate budget.endDate ++ ")")
          (some { month := budget.month, year := budget.year })
          (some budgetId) with ⟨st1, r⟩
        rw [hd] at hfail
        cases r with
        | error e => exact ⟨rfl, rfl⟩
        | ok tx => simp [Except.isOk, Except.toBool] at hfail

/-- A deposit with source `budget_remainder` that passes every check up to
the audit record's creation fails there with the source-enum validation. -/
lemma deposit_budget_remainder_invalidSource {st : SavingsState}
    {s : Savings} (hs : st.savings = some s) (now : ℤ) (a : ℚ) (d : String)
    (cyc : Option BudgetCycle) (rb : Option ℕ)
    (hdup : depositDup s "budget_remainder" cyc = false)
    (hok1 : savingsOk (depositUpdated s now a "budget_remainder" cyc) = true)
    (h100 : (1/100 : ℚ) ≤ a) :
    deposit st now a "budget_remainder" d cyc rb =
      (st, .error .invalidSource) := by
  simp only [deposit, getOrCreateSavings_some hs]
  rw [if_neg (by simp [hdup]), if_neg (not_not_intro hok1),
    if_pos (show (1/100 : ℚ) ≤
      (depositTx s a "budget_remainder" d cyc rb).amount from h100),
    if_neg (by
      rw [show (depositTx s a "budget_remainder" d cyc rb).source =
        "budget_remainder" from rfl]
      decide)]

/-- **C9** (code bug): neither flow reads the budget's status —
`coverBudgetOverrunById` succeeds on the same overrun budget in each of
the four statuses, with the period still running — but the claim's other
half fails: even for a budget with `savingsTransferred = false`, positive
remainder and any status, `transferBudgetRemainder` cannot succeed, its
deposit being rejected by the `SavingsTransaction` source enum. -/
theorem orchestrators_ignore_status :
    ((coverBudgetOverrunById envOverrun [{ budgetOver with status := "upcoming" }]
      stSixty 150 1 1 none).2.isOk = true) ∧
    ((coverBudgetOverrunById envOverrun [{ budgetOver with status := "active" }]
      stSixty 150 1 1 none).2.isOk = true) ∧
    ((coverBudgetOverrunById envOverrun [{ budgetOver with status := "completed" }]
      stSixty 150 1 1 none).2.isOk = true) ∧
    ((coverBudgetOverrunById envOverrun [{ budgetOver with status := "cancelled" }]
      stSixty 150 1 1 none).2.isOk = true) ∧
    ((transferBudgetRemainder envNoSpend [{ budgetJan with status := "active" }]
      stZero 150 1 1).2.2 = .error .invalidSource) := by
  have hok0 : savingsOk (depositUpdated zeroSavings 150 300
      "budget_remainder" (some ⟨1, 2024⟩)) = true := by
    simp only [depositUpdated]
    rw [if_neg (by decide)]
    norm_num [savingsOk, zeroSavings]
  have hdep : ∀ d, deposit stZero 150 300 "budget_remainder" d
      (some ⟨1, 2024⟩) (some 1) = (stZero, .error .invalidSource) :=
    fun d => deposit_budget_remainder_invalidSource rfl 150 300 d
      (some ⟨1, 2024⟩) (some 1) (by decide) hok0 (by norm_num)
  refine ⟨?_, ?_, ?_, ?_, ?_⟩
  case refine_5 =>
    norm_num [transferBudgetRemainder, calculateSpendingForPeriod,
      envNoSpend, budgetJan, groceries, hdep]
  all_goals
    norm_num [coverBudgetOverrunById, overrunOf,
      coverAmountOf, overrunDesc, calculateSpendingForPeriod,
      withdraw, getOrCreateSavings,
      withdrawUpdated, withdrawTx, savingsOk, savingsTransactionOk,
      savingsTransactionSourceValues, transferredCycleOk, budgetCycleOk,
      getDefaultDescription, formatDateRange, formatShortDate,
      formatShortDateYear, civilFromDays, yearOfMs, monthOfMs,
      monthShortNames, msPerDay, budgetOk,
      envOverrun, budgetJan, budgetOver, stSixty,
      sixtySavings, zeroSavings, groceries, Except.isOk, Except.toBool,
      Except.map]
  all_goals decide

/-- **C4**: `coverBudgetOverrunById` fails `NotOverrun` when the overrun
is not positive; with a positive overrun it covers
`min(requestedAmount, overrun)` (the full overrun when no amount is
requested): it fails `InsufficientSavings` with the savings state
untouched when the balance is short, and otherwise withdraws exactly the
cover amount as a debit with source `budget_overrun`. -/
theorem coverBudgetOverrunById_spec
    (env : Env) (budgets : List Budget) (st : SavingsState) (now : ℤ)
    (userId budgetId : ℕ) (req : Option ℚ) (budget : Budget)
    (category : Category) (s : Savings)
    (hb : budgets.find? (fun b => b.id == budgetId && b.userId == userId)
      = some budget)
    (hc : env.categories.find? (fun c => c.id == budget.categoryId)
      = some category)
    (hs : st.savings = some s) :
    (overrunOf env userId budget ≤ 0 →
      coverBudgetOverrunById env budgets st now userId budgetId req =
        (st, .error .notOverrun)) ∧
    (0 < overrunOf env userId budget →
      s.balance < coverAmountOf env userId budget req →
      coverBudgetOverrunById env budgets st now userId budgetId req =
        (st, .error .insufficientSavings)) ∧
    (0 < overrunOf env userId budget →
      ¬ s.balance < coverAmountOf env userId budget req →
      savingsOk (withdrawUpdated s now (coverAmountOf env userId budget req))
        = true →
      savingsTransactionOk (withdrawTx s (coverAmountOf env userId budget req)
        "budget_overrun" (overrunDesc category budget)
        (some ⟨budget.month, budget.year⟩) (some budgetId)) = true →
      coverBudgetOverrunById env budgets st now userId budgetId req =
        ({ savings :=
            some (withdrawUpdated s now (coverAmountOf env userId budget req)),
           txLog := st.txLog ++ [withdrawTx s
             (coverAmountOf env userId budget req) "budget_overrun"
             (overrunDesc category budget)
             (some ⟨budget.month, budget.year⟩) (some budgetId)] },
         .ok (withdrawTx s (coverAmountOf env userId budget req)
           "budget_overrun" (overrunDesc category budget)
           (some ⟨budget.month, budget.year⟩) (some budgetId),
          coverAmountOf env userId budget req))) := by
  refine ⟨?_, ?_, ?_⟩
  · intro hover
    simp only [coverBudgetOverrunById, hb, hc]
    rw [if_pos hover]
  · intro hpos hbal
    simp only [coverBudgetOverrunById, hb, hc]
    rw [if_neg (not_le.mpr hpos)]
    simp only [getOrCreateSavings_some hs]
    rw [if_pos hbal]
  · intro hpos hbal hok1 hok2
    simp only [coverBudgetOverrunById, hb, hc]
    rw [if_neg (not_le.mpr hpos)]
    simp only [getOrCreateSavings_some hs]
    rw [if_neg hbal,
      withdraw_ok hs now (coverAmountOf env userId budget req)
        "budget_overrun" (overrunDesc category budget)
        (some ⟨budget.month, budget.year⟩) (some budgetId) hbal hok1 hok2]
    rfl

/-- Witness for C4: an active budget of 100 with 150 spent, covered in
full (50) from a balance of 60. -/
theorem coverBudgetOverrunById_spec_witness :
    (coverBudgetOverrunById envOverrun [budgetOver] stSixty 150 1 1
      none).2.isOk = true := by
  have h := (coverBudgetOverrunById_spec envOverrun [budgetOver] stSixty 150
    1 1 none budgetOver groceries sixtySavings rfl rfl rfl).2.2
  have h1 : 0 < overrunOf envOverrun 1 budgetOver := by
    norm_num [overrunOf, calculateSpendingForPeriod, envOverrun, budgetOver,
      budgetJan, groceries]
  have h2 : ¬ sixtySavings.balance <
      coverAmountOf envOverrun 1 budgetOver none := by
    norm_num [coverAmountOf, overrunOf, calculateSpendingForPeriod,
      envOverrun, budgetOver, budgetJan, groceries, sixtySavings]
  have h3 : savingsOk (withdrawUpdated sixtySavings 150
      (coverAmountOf envOverrun 1 budgetOver none)) = true := by
    norm_num [savingsOk, withdrawUpdated, sixtySavings, coverAmountOf,
      overrunOf, calculateSpendingForPeriod, envOverrun, budgetOver,
      budgetJan, groceries]
  have h4 : savingsTransactionOk (withdrawTx sixtySavings
      (coverAmountOf envOverrun 1 budgetOver none) "budget_overrun"
      (overrunDesc groceries budgetOver)
      (some ⟨budgetOver.month, budgetOver.year⟩) (some 1)) = true := by
    norm_num [savingsTransactionOk, withdrawTx, sixtySavings, coverAmountOf,
      overrunOf, calculateSpendingForPeriod, envOverrun, budgetOver,
      budgetJan, groceries, overrunDesc, formatDateRange, formatShortDate,
      formatShortDateYear, civilFromDays, yearOfMs, monthShortNames,
      msPerDay, budgetCycleOk, savingsTransactionSourceValues]
    all_goals decide
  rw [h h1 h2 h3 h4]
  rfl

/-- A stored budget matching all of `checkOverlap`'s conditions makes the
overlap query find something. -/
lemma checkOverlap_finds {budgets : List Budget} {userId categoryId : ℕ}
    {s e : ℤ} {excludeId : Option ℕ} {b : Budget} (hb : b ∈ budgets)
    (h1 : b.userId = userId) (h2 : b.categoryId = categoryId)
    (h3 : b.status ≠ "completed") (h4 : b.status ≠ "cancelled")
    (h5 : b.startDate ≤ e) (h6 : s ≤ b.endDate)
    (h7 : ∀ i, excludeId = some i → b.id ≠ i) :
    (checkOverlap budgets userId categoryId s e excludeId).isSome = true := by
  apply List.find?_isSome.mpr
  refine ⟨b, hb, ?_⟩
  cases hex : excludeId with
  | none => simp [h1, h2, h3, h4, h5, h6]
  | some i => simp [h1, h2, h3, h4, h5, h6, h7 i hex]

/-- **C5**: when a stored non-terminal budget of the same owner and
category overlaps the requested window — each interval starting no later
than the other ends — creating a budget over that window, or moving a
budget's dates onto it, fails `OverlappingBudget` with the budget store
unchanged. -/
theorem overlapping_budget_rejected
    (env : Env) (budgets : List Budget) (now : ℤ) (userId : ℕ)
    (b : Budget) (hb : b ∈ budgets) (hbu : b.userId = userId)
    (hst1 : b.status ≠ "completed") (hst2 : b.status ≠ "cancelled") :
    (∀ (data : BudgetInput) (newId : ℕ) (category : Category) (s e : ℤ),
      env.categories.find? (fun c => c.id == data.categoryId &&
        c.userId == userId) = some category →
      category.ctype = "expense" →
      b.categoryId = data.categoryId →
      data.startDate = some s → data.endDate = some e →
      b.startDate ≤ e → s ≤ b.endDate →
      createOrUpdate env budgets now data userId newId =
        (budgets, .error .overlappingBudget)) ∧
    (∀ (budgetId : ℕ) (data : BudgetUpdate) (target : Budget),
      budgets.find? (fun x => x.id == budgetId && x.userId == userId)
        = some target →
      ¬ (target.status = "completed" ∧ target.savingsTransferred = true) →
      b.categoryId = target.categoryId →
      b.id ≠ budgetId →
      (data.startDate.isSome || data.endDate.isSome) = true →
      b.startDate ≤ data.endDate.getD target.endDate →
      data.startDate.getD target.startDate ≤ b.endDate →
      updateBudget env budgets now budgetId data userId =
        (budgets, .error .overlappingBudget)) := by
  constructor
  · intro data newId category s e hcat hexp hcid hsd hed ho1 ho2
    have hover := checkOverlap_finds hb hbu hcid hst1 hst2 ho1 ho2
      (fun i (hi : (none : Option ℕ) = some i) => Option.noConfusion hi)
    obtain ⟨ob, hob⟩ := Option.isSome_iff_exists.mp hover
    simp only [createOrUpdate, hcat]
    rw [if_neg (not_not_intro hexp)]
    simp only [hsd, hed]
    rw [hob]
  · intro budgetId data target htarget himm hcid hbid hdates ho1 ho2
    have hover := checkOverlap_finds hb hbu hcid hst1 hst2 ho1 ho2
      (fun i (hi : some budgetId = some i) => by
        injection hi with hi'
        exact hi' ▸ hbid)
    obtain ⟨ob, hob⟩ := Option.isSome_iff_exists.mp hover
    simp only [updateBudget, htarget]
    rw [if_neg himm, if_pos hdates, hob]

/-- Witness for C5: a stored active budget over `[100, 200]` blocks both
the creation of a second budget over the same window and a date change of
another budget onto it. -/
theorem overlapping_budget_rejected_witness :
    createOrUpdate envNoSpend [budgetActive] 150 inpPast 1 2 =
      ([budgetActive], .error .overlappingBudget) ∧
    updateBudget envNoSpend [budgetActive, budgetFar] 150 2
      { amount := none, startDate := some 150, endDate := some 180,
        periodType := none, notes := none } 1 =
      ([budgetActive, budgetFar], .error .overlappingBudget) := by
  have h := overlapping_budget_rejected envNoSpend [budgetActive] 150 1
    budgetActive (by simp) rfl (by decide) (by decide)
  have h' := overlapping_budget_rejected envNoSpend [budgetActive, budgetFar]
    150 1 budgetActive (by simp) rfl (by decide) (by decide)
  refine ⟨?_, ?_⟩
  · exact h.1 inpPast 2 groceries 100 200 rfl rfl rfl rfl rfl
      (by decide) (by decide)
  · exact h'.2 2 _ budgetFar rfl (by decide) rfl (by decide) rfl
      (by decide) (by decide)

/-- **C6** counterexample: with a lifetime income of 100 and an empty
savings account, the amount `1/200` (half a cent) is positive and within
the available balance of 100, yet `manualContribution` fails with the
audit schema's amount validation instead of depositing it. -/
theorem manualContribution_subcent_cex :
    (0 : ℚ) < 1/200 ∧
    (getAvailableBalance envIncome stZero 1).1 = 100 ∧
    (manualContribution envIncome stZero 150 1 (1/200) "").2 =
      .error .invalidAmount ∧
    (manualContribution envIncome stZero 150 1 (1/200) "").1 = stZero := by
  refine ⟨by norm_num, ?_, ?_, ?_⟩ <;>
    norm_num [manualContribution, getAvailableBalance, getOrCreateSavings,
      deposit, depositDup, depositUpdated, depositTx, savingsOk,
      envIncome, stZero, zeroSavings, List.filter,
      show (("income" : String) == "expense") = false from rfl,
      show (("income" : String) == "income") = true from rfl]

lemma getAvailableBalance_state (env : Env) {st : SavingsState}
    {s : Savings} (hs : st.savings = some s) (userId : ℕ) :
    (getAvailableBalance env st userId).2 = st := by
  simp [getAvailableBalance, getOrCreateSavings_some hs]

/-- **C6** (amended): `manualContribution` fails
`InsufficientAvailableBalance` when the amount exceeds the available
balance and `InvalidAmount` when the amount is non-positive; otherwise —
provided the amount also clears the audit schema's `0.01` minimum — it
deposits exactly `amount` with source `manual`. -/
theorem manualContribution_spec
    (env : Env) (st : SavingsState) (s : Savings) (now : ℤ) (userId : ℕ)
    (amount : ℚ) (d : String) (hs : st.savings = some s) :
    ((getAvailableBalance env st userId).1 < amount →
      manualContribution env st now userId amount d =
        (st, .error .insufficientAvailableBalance)) ∧
    (amount ≤ 0 →
      manualContribution env st now userId amount d =
        (st, .error .invalidAmount)) ∧
    (amount ≤ (getAvailableBalance env st userId).1 →
      savingsOk (depositUpdated s now amount "manual" none) = true →
      savingsTransactionOk (depositTx s amount "manual"
        (if d = "" then "Manual savings contribution" else d) none none)
        = true →
      manualContribution env st now userId amount d =
        ({ savings := some (depositUpdated s now amount "manual" none),
           txLog := st.txLog ++ [depositTx s amount "manual"
             (if d = "" then "Manual savings contribution" else d)
             none none] },
         .ok (depositTx s amount "manual"
           (if d = "" then "Manual savings contribution" else d)
           none none))) := by
  have hnn0 : (0 : ℚ) ≤ (getAvailableBalance env st userId).1 := by
    simp only [getAvailableBalance, getOrCreateSavings_some hs]
    exact le_max_left _ _
  rcases hp : getAvailableBalance env st userId with ⟨avail, st1⟩
  have hst1 : st1 = st := by
    have h2 := getAvailableBalance_state env hs userId
    rw [hp] at h2
    exact h2
  subst hst1
  have hnn : (0 : ℚ) ≤ avail := by
    rw [hp] at hnn0
    exact hnn0
  refine ⟨?_, ?_, ?_⟩
  · intro hlt0
    have hlt : avail < amount := hlt0
    simp only [manualContribution, hp]
    rw [if_pos hlt]
  · intro hle
    simp only [manualContribution, hp]
    rw [if_neg (not_lt.mpr (hle.trans hnn)), if_pos hle]
  · intro hle0 hok1 hok2
    have hle : amount ≤ avail := hle0
    obtain ⟨h100, -⟩ := savingsTransactionOk_parts hok2
    have hpos : (0 : ℚ) < amount := lt_of_lt_of_le (by norm_num) h100
    simp only [manualContribution, hp]
    rw [if_neg (not_lt.mpr hle), if_neg (not_le.mpr hpos),
      deposit_ok hs now amount "manual"
        (if d = "" then "Manual savings contribution" else d) none none rfl
        hok1 hok2]

/-- Witness for C6's amended theorem: a contribution of 30 against an
available balance of 100 deposits in full. -/
theorem manualContribution_spec_witness :
    (manualContribution envIncome stZero 150 1 30 "").2.isOk = true := by
  have h := (manualContribution_spec envIncome stZero zeroSavings 150 1 30 ""
    rfl).2.2
  have h1 : (30 : ℚ) ≤ (getAvailableBalance envIncome stZero 1).1 := by
    norm_num [getAvailableBalance, envIncome, stZero, getOrCreateSavings,
      zeroSavings, List.filter,
      show (("income" : String) == "expense") = false from rfl,
      show (("income" : String) == "income") = true from rfl]
  have h2 : savingsOk (depositUpdated zeroSavings 150 30 "manual" none)
      = true := by
    norm_num [savingsOk, depositUpdated, zeroSavings]
  have h3 : savingsTransactionOk (depositTx zeroSavings 30 "manual"
      (if "" = "" then "Manual savings contribution" else "") none none)
      = true := by
    norm_num [savingsTransactionOk, depositTx, zeroSavings,
      savingsTransactionSourceValues, budgetCycleOk]
    all_goals decide
  rw [h h1 h2 h3]
  rfl

/-- **C7** counterexample: with `now = 300`, past the window `[100, 200]`,
`createOrUpdate` accepts the budget and creates it with status
`completed` — a status the claim does not allow at creation. -/
theorem createOrUpdate_creates_completed_cex :
    ((createOrUpdate envNoSpend [] 300 inpPast 1 1).2.map
      (fun v => v.budget.status)) = .ok "completed" := by
  norm_num [createOrUpdate, newBudgetDoc, budgetView, checkOverlap,
    budgetOk, envNoSpend, inpPast, groceries, Except.map, List.find?]

/-- **C7** (amended): every budget accepted by `createOrUpdate` is created
with status `active` exactly when `now` lies inside
`[startDate, endDate]`, `completed` when `now` is already past `endDate`,
and `upcoming` otherwise. -/
theorem createOrUpdate_initial_status
    (env : Env) (budgets : List Budget) (now : ℤ) (data : BudgetInput)
    (userId newId : ℕ) (budgets' : List Budget) (view : BudgetView)
    (h : createOrUpdate env budgets now data userId newId =
      (budgets', .ok view)) :
    view.budget.status =
      (if view.budget.startDate ≤ now ∧ now ≤ view.budget.endDate then
        "active"
      else if view.budget.endDate < now then "completed"
      else "upcoming") := by
  unfold createOrUpdate at h
  repeat'
    first
      | split at h
      | dsimp only at h
  all_goals rw [Prod.mk.injEq] at h
  all_goals obtain ⟨hbs, hview⟩ := h
  all_goals cases hview
  all_goals simp [budgetView, newBudgetDoc]

/-- Witness for C7's amended theorem: the initial-status rule instantiated
on a successfully created past-period budget. -/
theorem createOrUpdate_initial_status_witness :
    (createOrUpdate envNoSpend [] 300 inpPast 1 1).2.isOk = true ∧
    (createOrUpdate envNoSpend [] 300 inpPast 1 1).2.map
        (fun v => v.budget.status) =
      (createOrUpdate envNoSpend [] 300 inpPast 1 1).2.map (fun v =>
        if v.budget.startDate ≤ 300 ∧ 300 ≤ v.budget.endDate then "active"
        else if v.budget.endDate < 300 then "completed"
        else "upcoming") := by
  constructor
  · norm_num [createOrUpdate, newBudgetDoc, budgetView, checkOverlap,
      budgetOk, envNoSpend, inpPast, groceries, Except.isOk, Except.toBool,
      List.find?]
  · rcases hr : createOrUpdate envNoSpend [] 300 inpPast 1 1 with ⟨bs, r⟩
    cases r with
    | error e => rfl
    | ok view =>
        have hst := createOrUpdate_initial_status envNoSpend [] 300 inpPast
          1 1 bs view hr
        simp [Except.map, hst]

/-- **C10**: for a period entirely in the past, `createOrUpdate` creates
the budget with status `completed`; because `checkOverlap` ignores budgets
stored as `completed` or `cancelled`, a second identical call also
succeeds, leaving two coexisting budgets with the same owner, category and
period, differing only in their id. -/
theorem past_period_duplicate_budgets
    (env : Env) (budgets : List Budget) (now : ℤ) (data : BudgetInput)
    (userId newId newId' : ℕ) (category : Category) (s e : ℤ)
    (hcat : env.categories.find? (fun c => c.id == data.categoryId &&
      c.userId == userId) = some category)
    (hexp : category.ctype = "expense")
    (hsd : data.startDate = some s) (hed : data.endDate = some e)
    (hpast : e < now)
    (hover : checkOverlap budgets userId data.categoryId s e none = none)
    (hvalid : budgetOk (newBudgetDoc data userId newId now s e
      (data.periodType.getD "custom")) = true)
    (hvalid' : budgetOk (newBudgetDoc data userId newId' now s e
      (data.periodType.getD "custom")) = true) :
    createOrUpdate env budgets now data userId newId =
      (budgets ++ [newBudgetDoc data userId newId now s e
        (data.periodType.getD "custom")],
       .ok (budgetView env userId (newBudgetDoc data userId newId now s e
        (data.periodType.getD "custom")))) ∧
    (newBudgetDoc data userId newId now s e
      (data.periodType.getD "custom")).status = "completed" ∧
    createOrUpdate env (budgets ++ [newBudgetDoc data userId newId now s e
        (data.periodType.getD "custom")]) now data userId newId' =
      (budgets ++ [newBudgetDoc data userId newId now s e
          (data.periodType.getD "custom"),
        newBudgetDoc data userId newId' now s e
          (data.periodType.getD "custom")],
       .ok (budgetView env userId (newBudgetDoc data userId newId' now s e
        (data.periodType.getD "custom")))) := by
  have hstatus : ∀ nid, (newBudgetDoc data userId nid now s e
      (data.periodType.getD "custom")).status = "completed" := by
    intro nid
    simp only [newBudgetDoc]
    rw [if_neg (fun hc => absurd hc.2 (not_le.mpr hpast)), if_pos hpast]
  have hfirst : createOrUpdate env budgets now data userId newId =
      (budgets ++ [newBudgetDoc data userId newId now s e
        (data.periodType.getD "custom")],
       .ok (budgetView env userId (newBudgetDoc data userId newId now s e
        (data.periodType.getD "custom")))) := by
    simp only [createOrUpdate, hcat]
    rw [if_neg (not_not_intro hexp)]
    simp only [hsd, hed]
    rw [hover, if_pos hvalid]
  have hover2 : checkOverlap (budgets ++ [newBudgetDoc data userId newId
      now s e (data.periodType.getD "custom")]) userId data.categoryId s e
      none = none := by
    unfold checkOverlap at hover ⊢
    rw [List.find?_append, hover, Option.none_or, List.find?]
    simp [hstatus newId]
  refine ⟨hfirst, hstatus newId, ?_⟩
  simp only [createOrUpdate, hcat]
  rw [if_neg (not_not_intro hexp)]
  simp only [hsd, hed]
  rw [hover2, if_pos hvalid']
  simp

/-- Witness for C10: the past-period input `[100, 200]` accepted twice in
a row by `createOrUpdate`, for the same owner and category. -/
theorem past_period_duplicate_budgets_witness :
    (createOrUpdate envNoSpend [] 300 inpPast 1 1).2.isOk = true ∧
    (createOrUpdate envNoSpend
      (createOrUpdate envNoSpend [] 300 inpPast 1 1).1
      300 inpPast 1 2).2.isOk = true := by
  have hv : ∀ nid, budgetOk (newBudgetDoc inpPast 1 nid 300 100 200
      (inpPast.periodType.getD "custom")) = true := by
    intro nid
    norm_num [budgetOk, newBudgetDoc, inpPast]
  have h := past_period_duplicate_budgets envNoSpend [] 300 inpPast 1 1 2
    groceries 100 200 rfl rfl rfl rfl (by norm_num) rfl (hv 1) (hv 2)
  refine ⟨?_, ?_⟩
  · rw [h.1]
    rfl
  · rw [h.1]
    rw [show ((([] : List Budget) ++ [newBudgetDoc inpPast 1 1 300 100 200
      (inpPast.periodType.getD "custom")],
      Except.ok (budgetView envNoSpend 1 (newBudgetDoc inpPast 1 1 300 100
        200 (inpPast.periodType.getD "custom")))).1) =
      ([] : List Budget) ++ [newBudgetDoc inpPast 1 1 300 100 200
        (inpPast.periodType.getD "custom")] from rfl]
    rw [h.2.2]
    rfl

end BudgetHandler
